import Mathlib

set_option maxRecDepth 8000

/-
Verification of the dual-analyzer sentiment reconciliation logic.

Shallow embedding of the decision logic of `app.py` and `sentiment.py`:
  * Python text is modelled as `List Char`; `text[:512]` is `List.take 512`,
    `str.strip()` is `pyStrip`.
  * Python floats are modelled as rationals; `round(x, 3)` is `round3`
    (round half to even at three decimal places).
  * The external engines (the VADER `SentimentIntensityAnalyzer` and the two
    Hugging Face pipelines) are oracle parameters: the embedded functions are
    quantified over every possible engine behaviour.  A fallible engine
    returns `Option`; a raised exception propagates as `none`.
-/

/-- The dictionary returned by `vader.polarity_scores(text)`:
fields `pos`, `neu`, `neg`, `compound`. -/
structure VaderScores where
  pos : ℚ
  neu : ℚ
  neg : ℚ
  compound : ℚ
deriving DecidableEq

/-- The dictionary built by `analyze_with_vader` in `app.py`:
keys `sentiment`, `scores`, `compound`. -/
structure VaderResult where
  sentiment : String
  scores : VaderScores
  compound : ℚ
deriving DecidableEq

/-- One item of a Hugging Face pipeline output:
a dictionary with keys `label` and `score`. -/
structure PipelineItem where
  label : String
  score : ℚ
deriving DecidableEq

/-- The dictionary built by `analyze_with_transformer` in `app.py`:
keys `sentiment`, `confidence`. -/
structure TransformerResult where
  sentiment : String
  confidence : ℚ
deriving DecidableEq

/-- The three comparison outcomes of the agreement check in `app.py` `main`
(the `st.success`, `st.info` and `st.warning` branches of lines 192-197). -/
inductive Verdict where
  | Agree
  | WeakDisagreeNeutral
  | Disagree
deriving DecidableEq

/-- Outcome of one press of the Analyze button in `app.py` `main`:
either the full analysis (both results plus the agreement verdict) or the
`st.warning("Please enter some text")` branch taken on blank input. -/
inductive MainResult where
  | warning
  | report (vader : VaderResult) (transformer : TransformerResult) (verdict : Verdict)
deriving DecidableEq

/-- Nearest integer to `n / d` (for `d > 0`), ties to even: the rounding mode
of the Python built-in `round`. -/
def roundHalfEven (n d : ℤ) : ℤ :=
  let q := Int.ediv n d
  let r := Int.emod n d
  if 2 * r < d then q
  else if d < 2 * r then q + 1
  else if q % 2 = 0 then q else q + 1

/-- Python `round(x, 3)` on the rational model of a float: round half to even
at the third decimal place. -/
def round3 (x : ℚ) : ℚ := mkRat (roundHalfEven (x.num * 1000) x.den) 1000

/-- Python `str.strip()`: drop whitespace from both ends. -/
def pyStrip (s : List Char) : List Char :=
  ((s.dropWhile Char.isWhitespace).reverse.dropWhile Char.isWhitespace).reverse

/-- Function `get_vader_sentiment_label` of `app.py`: threshold rule on the compound
score.  Here `mkRat 5 100` is the literal `0.05` of the source and
`mkRat (-5) 100` its `-0.05`, as exact rationals. -/
def get_vader_sentiment_label (compound_score : ℚ) : String :=
  if compound_score ≥ mkRat 5 100 then "POSITIVE"
  else if compound_score ≤ mkRat (-5) 100 then "NEGATIVE"
  else "NEUTRAL"

/-- Function `analyze_with_vader` of `app.py`, over an engine `vader_analyzer` standing for
`SentimentIntensityAnalyzer.polarity_scores`; an engine exception propagates
as `none`.  The text is passed to the engine unchanged. -/
def analyze_with_vader (vader_analyzer : List Char → Option VaderScores)
    (text : List Char) : Option VaderResult :=
  (vader_analyzer text).map fun scores =>
    { sentiment := get_vader_sentiment_label scores.compound
      scores := scores
      compound := scores.compound }

/-- Function `analyze_with_transformer` of `app.py`, over an engine standing for
`transformer_pipeline(...)[0]`; the engine is applied to `text[:512]`. -/
def analyze_with_transformer (transformer_pipeline : List Char → Option PipelineItem)
    (text : List Char) : Option TransformerResult :=
  (transformer_pipeline (List.take 512 text)).map fun r =>
    { sentiment := r.label, confidence := r.score }

/-- The agreement check of `app.py` `main` (lines 192-197): `st.success` when
the sentiments match, `st.info` when VADER is NEUTRAL and the transformer
confidence is below 0.75 (`mkRat 75 100`), `st.warning` otherwise. -/
def agreement_check (vaderSentiment transformerSentiment : String)
    (transformerConfidence : ℚ) : Verdict :=
  if vaderSentiment = transformerSentiment then Verdict.Agree
  else if vaderSentiment = "NEUTRAL" ∧ transformerConfidence < mkRat 75 100 then
    Verdict.WeakDisagreeNeutral
  else Verdict.Disagree

/-- The analysis-button handler of `app.py` `main`: on non-blank input, run
VADER, then the transformer, then the agreement check; on blank input show a
warning and run nothing.  An engine exception aborts the run (`none`). -/
def main_analysis (vader_analyzer : List Char → Option VaderScores)
    (transformer_pipeline : List Char → Option PipelineItem)
    (user_input : List Char) : Option MainResult :=
  if pyStrip user_input ≠ [] then
    match analyze_with_vader vader_analyzer user_input with
    | none => none
    | some vader_result =>
      match analyze_with_transformer transformer_pipeline user_input with
      | none => none
      | some transformer_result =>
        some (MainResult.report vader_result transformer_result
          (agreement_check vader_result.sentiment transformer_result.sentiment
            transformer_result.confidence))
  else some MainResult.warning

/-- Table `LABEL_MAP` of `sentiment.py`: the fixed model-label lookup table. -/
def LABEL_MAP : List (String × String) :=
  [("LABEL_0", "Negative"), ("LABEL_1", "Neutral"), ("LABEL_2", "Positive")]

/-- Python dict insertion: an existing key keeps its position and gets the new
value; a new key is appended. -/
def dictInsert (d : List (String × ℚ)) (k : String) (v : ℚ) : List (String × ℚ) :=
  if d.any (fun p => p.1 = k) then d.map (fun p => if p.1 = k then (k, v) else p)
  else d ++ [(k, v)]

/-- Loop body of the dict comprehension in `sentiment.py` `analyze_sentiment`:
insert the items one by one into the accumulated dict; a label outside
`LABEL_MAP` raises `KeyError`, modelled as `none`. -/
def buildScoresAux (acc : List (String × ℚ)) :
    List PipelineItem → Option (List (String × ℚ))
  | [] => some acc
  | item :: rest =>
    match List.lookup item.label LABEL_MAP with
    | none => none
    | some k => buildScoresAux (dictInsert acc k (round3 item.score)) rest

/-- The dict comprehension of `analyze_sentiment` in `sentiment.py`: each
item maps its translated label to its rounded score. -/
def buildScores (results : List PipelineItem) : Option (List (String × ℚ)) :=
  buildScoresAux [] results

/-- Python `max(scores, key=scores.get)` paired with `scores[label]`: iterate
the dict in insertion order, replacing the current best only on a strictly
greater value, so the first key attaining the maximum wins; an empty dict
raises `ValueError`, modelled as `none`. -/
def pyMaxKey (d : List (String × ℚ)) : Option (String × ℚ) :=
  match d with
  | [] => none
  | p :: rest => some (rest.foldl (fun best q => if best.2 < q.2 then q else best) p)

/-- Function `analyze_sentiment` of `sentiment.py`, over an engine standing for
`sentiment_pipeline(text)[0]` (a list of per-label items).  The text is
passed to the engine unchanged.  Returns `(label, score, scores)`; a
`KeyError` from the label map or a `ValueError` from `max` propagates. -/
def analyze_sentiment (sentiment_pipeline : List Char → List PipelineItem)
    (text : List Char) : Option (String × ℚ × List (String × ℚ)) :=
  match buildScores (sentiment_pipeline text) with
  | none => none
  | some scores =>
    match pyMaxKey scores with
    | none => none
    | some (label, score) => some (label, score, scores)

/-- The label branch of `sentiment.py` `analyze_vader`: threshold rule on the
compound score, capitalized labels. -/
def vader_label (compound : ℚ) : String :=
  if compound ≥ mkRat 5 100 then "Positive"
  else if compound ≤ mkRat (-5) 100 then "Negative"
  else "Neutral"

/-- Function `analyze_vader` of `sentiment.py`, over an engine standing for
`vader.polarity_scores`.  Returns `(label, round(compound, 3), scores)`:
the label comes from the unrounded compound, the returned compound is
rounded to three decimals. -/
def analyze_vader (vader_engine : List Char → VaderScores)
    (text : List Char) : String × ℚ × VaderScores :=
  let scores := vader_engine text
  let compound := scores.compound
  (vader_label compound, round3 compound, scores)

/-- The canonical three-way sentiment taxonomy of the specification. -/
inductive SentimentLabel where
  | Positive
  | Negative
  | Neutral
deriving DecidableEq

/-- Modelled from the spec (section 4.4), for comparison with the code:
the reconciliation rule stated over the canonical taxonomy.  1. equal labels
give Agree; 2. lexicon Neutral with classifier confidence strictly below 0.75
gives WeakDisagreeNeutral; 3. anything else gives Disagree. -/
def specReconcile (lex cls : SentimentLabel) (confidence : ℚ) : Verdict :=
  if lex = cls then Verdict.Agree
  else if lex = SentimentLabel.Neutral ∧ confidence < mkRat 75 100 then
    Verdict.WeakDisagreeNeutral
  else Verdict.Disagree

/-- The uppercase label vocabulary of `app.py` for each taxonomy element. -/
def encodeUpper : SentimentLabel → String
  | SentimentLabel.Positive => "POSITIVE"
  | SentimentLabel.Negative => "NEGATIVE"
  | SentimentLabel.Neutral => "NEUTRAL"

/-- C1: for every pair of a lexicon result and a classifier result (labels
drawn from the canonical taxonomy, any classifier confidence), the agreement
check of `app.py` `main` produces exactly the three-step verdict of the
specification: equal labels give Agree; otherwise a Neutral lexicon label
with classifier confidence strictly below 0.75 gives WeakDisagreeNeutral;
otherwise Disagree. -/
theorem reconcile_matches_spec (lex cls : SentimentLabel) (confidence : ℚ) :
    agreement_check (encodeUpper lex) (encodeUpper cls) confidence =
      specReconcile lex cls confidence := by
  cases lex <;> cases cls <;>
    simp [agreement_check, specReconcile, encodeUpper]

/-- C2: on every compound score in `[-1, 1]`, both label derivations
(`get_vader_sentiment_label` in `app.py` and the label branch of
`analyze_vader` in `sentiment.py`) return Positive when the compound is at
least 0.05, Negative when it is at most -0.05, and Neutral otherwise; the
boundary values 0.05 and -0.05 map to Positive and Negative. -/
theorem vader_threshold_rule :
    (∀ c : ℚ, -1 ≤ c → c ≤ 1 →
      (mkRat 5 100 ≤ c →
        get_vader_sentiment_label c = "POSITIVE" ∧ vader_label c = "Positive") ∧
      (c ≤ mkRat (-5) 100 →
        get_vader_sentiment_label c = "NEGATIVE" ∧ vader_label c = "Negative") ∧
      (mkRat (-5) 100 < c → c < mkRat 5 100 →
        get_vader_sentiment_label c = "NEUTRAL" ∧ vader_label c = "Neutral")) ∧
    get_vader_sentiment_label (mkRat 5 100) = "POSITIVE" ∧
    get_vader_sentiment_label (mkRat (-5) 100) = "NEGATIVE" ∧
    vader_label (mkRat 5 100) = "Positive" ∧
    vader_label (mkRat (-5) 100) = "Negative" := by
  refine ⟨?_, by decide, by decide, by decide, by decide⟩
  intro c _ _
  have hlt : mkRat (-5) 100 < mkRat 5 100 := by decide
  refine ⟨?_, ?_, ?_⟩
  · intro h
    have hn : ¬ c ≤ mkRat (-5) 100 := not_le.mpr (lt_of_lt_of_le hlt h)
    simp [get_vader_sentiment_label, vader_label, ge_iff_le, h]
  · intro h
    have hn : ¬ mkRat 5 100 ≤ c := not_le.mpr (lt_of_le_of_lt h hlt)
    simp [get_vader_sentiment_label, vader_label, ge_iff_le, h, hn]
  · intro h1 h2
    simp [get_vader_sentiment_label, vader_label, ge_iff_le,
      not_le.mpr h1, not_le.mpr h2]

/-- C2 witness: the rule evaluated at the concrete compound 0.06. -/
theorem vader_threshold_rule_witness :
    get_vader_sentiment_label (mkRat 6 100) = "POSITIVE" ∧
      vader_label (mkRat 6 100) = "Positive" :=
  (vader_threshold_rule.1 (mkRat 6 100) (by decide) (by decide)).1 (by decide)

/-- C5: when the VADER label is NEUTRAL, the transformer label differs, and
the transformer confidence is exactly 0.75, the agreement check of `app.py`
falls through to Disagree (the weak-signal comparison is a strict `<`),
not to WeakDisagreeNeutral. -/
theorem boundary_confidence_disagree (cls : String) (h : cls ≠ "NEUTRAL") :
    agreement_check "NEUTRAL" cls (mkRat 75 100) = Verdict.Disagree := by
  unfold agreement_check
  rw [if_neg (fun hc => h hc.symm), if_neg]
  rintro ⟨-, hlt⟩
  exact absurd hlt (by decide)

/-- C5 witness: VADER NEUTRAL against transformer NEGATIVE at confidence
exactly 0.75 yields Disagree. -/
theorem boundary_confidence_disagree_witness :
    agreement_check "NEUTRAL" "NEGATIVE" (mkRat 75 100) = Verdict.Disagree :=
  boundary_confidence_disagree "NEGATIVE" (by decide)

/-- C3 counterexample: no scorer has an empty-input guard.  With an engine
that reports compound 0.5 on the empty string, both `analyze_with_vader`
(`app.py`) and `analyze_vader` (`sentiment.py`) return a POSITIVE result for
empty input - the empty input is dispatched to the engine and its answer is
used unchanged.  Moreover `app.py` `main` never computes a verdict on empty
input: it takes the warning branch, so no Agree verdict arises. -/
theorem no_empty_input_guard_counterexample :
    analyze_with_vader (fun _ => some ⟨0, 0, 0, mkRat 1 2⟩) [] =
      some ⟨"POSITIVE", ⟨0, 0, 0, mkRat 1 2⟩, mkRat 1 2⟩ ∧
    (analyze_vader (fun _ => ⟨0, 0, 0, mkRat 1 2⟩) []).1 = "Positive" ∧
    main_analysis (fun _ => some ⟨0, 1, 0, 0⟩)
      (fun _ => some ⟨"POSITIVE", mkRat 9 10⟩) [] = some MainResult.warning := by
  decide

/-- C3 amended: empty or whitespace-only input never reaches the scorers in
`app.py`: the guard in `main` skips the analysis and shows a warning, so no
result and no verdict is produced and no error is raised; the scorer
functions themselves contain no guard and hand the text unchanged to the
underlying engine. -/
theorem empty_input_skips_analysis :
    (∀ (vader_analyzer : List Char → Option VaderScores)
       (transformer_pipeline : List Char → Option PipelineItem)
       (user_input : List Char), pyStrip user_input = [] →
       main_analysis vader_analyzer transformer_pipeline user_input =
         some MainResult.warning) ∧
    (∀ (vader_analyzer : List Char → Option VaderScores) (text : List Char),
       analyze_with_vader vader_analyzer text = (vader_analyzer text).map
         fun scores =>
           ⟨get_vader_sentiment_label scores.compound, scores, scores.compound⟩) ∧
    (∀ (vader_engine : List Char → VaderScores) (text : List Char),
       analyze_vader vader_engine text =
         (vader_label (vader_engine text).compound,
          round3 (vader_engine text).compound, vader_engine text)) := by
  refine ⟨?_, fun _ _ => rfl, fun _ _ => rfl⟩
  intro va tp input h
  simp [main_analysis, h]

/-- C3 amended witness: a whitespace-only input takes the warning branch. -/
theorem empty_input_skips_analysis_witness :
    main_analysis (fun _ => none) (fun _ => none) [' '] = some MainResult.warning :=
  empty_input_skips_analysis.1 _ _ [' '] (by decide)

/-- C8 counterexample: when the transformer engine fails on non-blank input,
`app.py` `main` produces nothing at all - no verdict, no incomplete-comparison
report - even though the VADER engine succeeded; the failure propagates. -/
theorem missing_result_aborts_counterexample :
    main_analysis (fun _ => some ⟨0, 1, 0, 0⟩) (fun _ => none) ['h'] = none := by
  decide

/-- C8 amended: when the engine of either scorer fails on non-blank input,
`app.py` `main` reports no comparison of any kind: the failure propagates and
the run aborts. -/
theorem scorer_failure_propagates
    (vader_analyzer : List Char → Option VaderScores)
    (transformer_pipeline : List Char → Option PipelineItem)
    (user_input : List Char) (hin : pyStrip user_input ≠ [])
    (h : vader_analyzer user_input = none ∨
      transformer_pipeline (List.take 512 user_input) = none) :
    main_analysis vader_analyzer transformer_pipeline user_input = none := by
  unfold main_analysis
  rw [if_pos hin]
  rcases h with h | h
  · simp [analyze_with_vader, h]
  · cases hv : analyze_with_vader vader_analyzer user_input with
    | none => rfl
    | some v => simp [analyze_with_transformer, h]

/-- C8 amended witness: a failing VADER engine aborts the analysis of "hi". -/
theorem scorer_failure_propagates_witness :
    main_analysis (fun _ => none) (fun _ => some ⟨"POSITIVE", mkRat 9 10⟩)
      ['h', 'i'] = none :=
  scorer_failure_propagates _ _ _ (by decide) (Or.inl rfl)

/-- C9: the transformer scorer of `app.py` is a function of the first 512
characters of its input: any two texts agreeing on their first 512 characters
receive identical results, whatever the pipeline does. -/
theorem transformer_depends_on_prefix_only
    (transformer_pipeline : List Char → Option PipelineItem) (t1 t2 : List Char)
    (h : List.take 512 t1 = List.take 512 t2) :
    analyze_with_transformer transformer_pipeline t1 =
      analyze_with_transformer transformer_pipeline t2 := by
  unfold analyze_with_transformer
  rw [h]

/-- C9 witness: texts of 513 and 514 identical characters share their first
512 characters, hence their transformer result. -/
theorem transformer_depends_on_prefix_only_witness :
    analyze_with_transformer (fun _ => some ⟨"POSITIVE", mkRat 9 10⟩)
        (List.replicate 513 'a') =
      analyze_with_transformer (fun _ => some ⟨"POSITIVE", mkRat 9 10⟩)
        (List.replicate 514 'a') :=
  transformer_depends_on_prefix_only _ _ _ (by decide)

/-- C6 counterexample: `analyze_sentiment` in `sentiment.py` applies no
truncation: with a pipeline whose answer depends on whether the text is
longer than 512 characters, a 513-character text is classified from its full
length - Negative here - while the same text truncated to 512 characters
comes out Positive.  A truncating scorer would give equal results. -/
theorem no_truncation_in_sentiment_counterexample :
    analyze_sentiment
        (fun t => if 513 ≤ t.length then
          [⟨"LABEL_0", mkRat 9 10⟩, ⟨"LABEL_1", mkRat 1 10⟩, ⟨"LABEL_2", 0⟩]
          else [⟨"LABEL_0", 0⟩, ⟨"LABEL_1", mkRat 1 10⟩, ⟨"LABEL_2", mkRat 9 10⟩])
        (List.replicate 513 'a') =
      some ("Negative", mkRat 9 10,
        [("Negative", mkRat 9 10), ("Neutral", mkRat 1 10), ("Positive", 0)]) ∧
    analyze_sentiment
        (fun t => if 513 ≤ t.length then
          [⟨"LABEL_0", mkRat 9 10⟩, ⟨"LABEL_1", mkRat 1 10⟩, ⟨"LABEL_2", 0⟩]
          else [⟨"LABEL_0", 0⟩, ⟨"LABEL_1", mkRat 1 10⟩, ⟨"LABEL_2", mkRat 9 10⟩])
        (List.take 512 (List.replicate 513 'a')) =
      some ("Positive", mkRat 9 10,
        [("Negative", 0), ("Neutral", mkRat 1 10), ("Positive", mkRat 9 10)]) := by
  decide

/-- C6 amended: the `app.py` transformer scorer bounds its input to the first
512 characters before scoring - its result equals the result on the truncated
text, the text given to the engine never exceeds 512 characters, and with a
total engine an over-length input never produces an error; the `sentiment.py`
classifier scorer applies no such truncation. -/
theorem truncation_in_app_transformer :
    (∀ (transformer_pipeline : List Char → Option PipelineItem) (text : List Char),
       analyze_with_transformer transformer_pipeline text =
         analyze_with_transformer transformer_pipeline (List.take 512 text)) ∧
    (∀ text : List Char, (List.take 512 text).length ≤ 512) ∧
    (∀ (engine : List Char → PipelineItem) (text : List Char),
       (analyze_with_transformer (fun s => some (engine s)) text).isSome = true) := by
  refine ⟨?_, ?_, ?_⟩
  · intro tp text
    simp [analyze_with_transformer, List.take_take]
  · intro text
    simp [List.length_take]
  · intro engine text
    simp [analyze_with_transformer]

/-- C7: a model-native label token outside the fixed `LABEL_MAP` table is not
found by the lookup, and `analyze_sentiment` then raises (returns the error
value), never a silently defaulted label. -/
theorem unknown_label_raises :
    (∀ s : String, s ≠ "LABEL_0" → s ≠ "LABEL_1" → s ≠ "LABEL_2" →
       List.lookup s LABEL_MAP = none) ∧
    (∀ (sentiment_pipeline : List Char → List PipelineItem) (text : List Char),
       (∃ item ∈ sentiment_pipeline text, List.lookup item.label LABEL_MAP = none) →
       analyze_sentiment sentiment_pipeline text = none) := by
  constructor
  · intro s h0 h1 h2
    have e0 : (s == "LABEL_0") = false := beq_eq_false_iff_ne.mpr h0
    have e1 : (s == "LABEL_1") = false := beq_eq_false_iff_ne.mpr h1
    have e2 : (s == "LABEL_2") = false := beq_eq_false_iff_ne.mpr h2
    simp [LABEL_MAP, List.lookup, e0, e1, e2]
  · intro sp text h
    have key : ∀ (items : List PipelineItem) (acc : List (String × ℚ)),
        (∃ item ∈ items, List.lookup item.label LABEL_MAP = none) →
        buildScoresAux acc items = none := by
      intro items
      induction items with
      | nil => rintro acc ⟨item, hmem, -⟩; cases hmem
      | cons a as ih =>
        rintro acc ⟨item, hmem, hnone⟩
        rcases List.mem_cons.mp hmem with rfl | hmem
        · simp [buildScoresAux, hnone]
        · cases hl : List.lookup a.label LABEL_MAP with
          | none => simp [buildScoresAux, hl]
          | some k =>
            simp only [buildScoresAux, hl]
            exact ih _ ⟨item, hmem, hnone⟩
    unfold analyze_sentiment buildScores
    rw [key _ _ h]

/-- C7 witness: the unmapped token LABEL_9 misses the table, and a pipeline
emitting it makes `analyze_sentiment` error out. -/
theorem unknown_label_raises_witness :
    List.lookup "LABEL_9" LABEL_MAP = none ∧
    analyze_sentiment (fun _ => [⟨"LABEL_9", mkRat 1 2⟩]) [] = none :=
  ⟨unknown_label_raises.1 "LABEL_9" (by decide) (by decide) (by decide),
   unknown_label_raises.2 _ _ ⟨⟨"LABEL_9", mkRat 1 2⟩, by decide, by decide⟩⟩

/-- The running best of the `max` fold is at least the seed and at least every
list element. -/
theorem foldl_best_ge (rest : List (String × ℚ)) (p : String × ℚ) :
    p.2 ≤ (rest.foldl (fun best q => if best.2 < q.2 then q else best) p).2 ∧
    ∀ q ∈ rest, q.2 ≤ (rest.foldl (fun best q => if best.2 < q.2 then q else best) p).2 := by
  induction rest generalizing p with
  | nil => exact ⟨le_refl _, by simp⟩
  | cons a as ih =>
    have step : p.2 ≤ (if p.2 < a.2 then a else p).2 ∧
        a.2 ≤ (if p.2 < a.2 then a else p).2 := by
      by_cases h : p.2 < a.2
      · simp [h, le_of_lt h]
      · simp [h, not_lt.mp h]
    have tail := ih (if p.2 < a.2 then a else p)
    refine ⟨?_, ?_⟩
    · simpa [List.foldl_cons] using le_trans step.1 tail.1
    · intro q hq
      rcases List.mem_cons.mp hq with h | h
      · have hq2 : q.2 ≤ (if p.2 < a.2 then a else p).2 := by rw [h]; exact step.2
        simpa [List.foldl_cons] using le_trans hq2 tail.1
      · simpa [List.foldl_cons] using tail.2 q h

/-- C4 counterexample: with the standard model output order (LABEL_0,
LABEL_1, LABEL_2) and a tie between Neutral and Positive at probability 0.5,
`analyze_sentiment` in `sentiment.py` selects Neutral - the first key of the
score dict attaining the maximum - not Positive as the claimed taxonomy order
Positive > Neutral > Negative would require. -/
theorem tie_break_counterexample :
    analyze_sentiment
        (fun _ => [⟨"LABEL_0", 0⟩, ⟨"LABEL_1", mkRat 1 2⟩, ⟨"LABEL_2", mkRat 1 2⟩])
        ['t'] =
      some ("Neutral", mkRat 1 2,
        [("Negative", 0), ("Neutral", mkRat 1 2), ("Positive", mkRat 1 2)]) ∧
    (analyze_sentiment
        (fun _ => [⟨"LABEL_0", 0⟩, ⟨"LABEL_1", mkRat 1 2⟩, ⟨"LABEL_2", mkRat 1 2⟩])
        ['t']).map (fun r => r.1) ≠ some "Positive" := by
  decide

/-- C4 amended: the label selected by `analyze_sentiment` does carry the
maximum probability of the score dict, but ties are broken by insertion order
- the first entry of the dict attaining the maximum wins, so the choice
follows the order of the output entries of the model rather than a fixed taxonomy
order. -/
theorem argmax_first_entry_wins :
    (∀ (sentiment_pipeline : List Char → List PipelineItem) (text : List Char)
       (label : String) (score : ℚ) (scores : List (String × ℚ)),
       analyze_sentiment sentiment_pipeline text = some (label, score, scores) →
       ∀ q ∈ scores, q.2 ≤ score) ∧
    (∀ (p : String × ℚ) (rest : List (String × ℚ)),
       (∀ q ∈ rest, q.2 ≤ p.2) → pyMaxKey (p :: rest) = some p) := by
  constructor
  · intro sp text label score scores h q hq
    unfold analyze_sentiment at h
    cases hb : buildScores (sp text) with
    | none => simp [hb] at h
    | some sc =>
      simp only [hb] at h
      cases hm : pyMaxKey sc with
      | none => simp [hm] at h
      | some m =>
        obtain ⟨ml, ms⟩ := m
        simp only [hm, Option.some.injEq, Prod.mk.injEq] at h
        obtain ⟨rfl, rfl, rfl⟩ := h
        cases sc with
        | nil => simp [pyMaxKey] at hm
        | cons p rest =>
          simp only [pyMaxKey, Option.some.injEq] at hm
          have hfold := foldl_best_ge rest p
          rcases List.mem_cons.mp hq with h1 | h1
          · have hq2 : q.2 ≤
                (rest.foldl (fun best q => if best.2 < q.2 then q else best) p).2 := by
              rw [h1]; exact hfold.1
            rw [hm] at hq2
            exact hq2
          · have hq2 := hfold.2 q h1
            rw [hm] at hq2
            exact hq2
  · intro p rest h
    unfold pyMaxKey
    induction rest with
    | nil => rfl
    | cons a as ih =>
      have ha : ¬ p.2 < a.2 := not_lt.mpr (h a (List.mem_cons_self a as))
      simp only [List.foldl_cons, if_neg ha]
      exact ih fun q hq => h q (List.mem_cons_of_mem a hq)

/-- C4 amended witness: the amended rule evaluated concretely - the selected
score bounds every entry of the tied dict, and a seeded maximum that ties a
later entry is kept. -/
theorem argmax_first_entry_wins_witness :
    ((("Negative", (0 : ℚ))).2 ≤ mkRat 1 2) ∧
    pyMaxKey [("Neutral", mkRat 1 2), ("Positive", mkRat 1 2)] =
      some ("Neutral", mkRat 1 2) :=
  ⟨argmax_first_entry_wins.1
      (fun _ => [⟨"LABEL_0", 0⟩, ⟨"LABEL_1", mkRat 1 2⟩, ⟨"LABEL_2", mkRat 1 2⟩])
      ['t'] "Neutral" (mkRat 1 2)
      [("Negative", 0), ("Neutral", mkRat 1 2), ("Positive", mkRat 1 2)]
      (by decide) ("Negative", 0) (by decide),
   argmax_first_entry_wins.2 ("Neutral", mkRat 1 2) [("Positive", mkRat 1 2)]
      (by decide)⟩

/-- Half-to-even rounding sends every ratio in `[49.5, 50)` to 50. -/
theorem roundHalfEven_eq_50 (n d : ℤ) (hd : 0 < d)
    (hlo : 99 * d ≤ 2 * n) (hhi : n < 50 * d) :
    roundHalfEven n d = 50 := by
  have hdvd : d * Int.ediv n d + Int.emod n d = n := Int.ediv_add_emod n d
  have hr0 : 0 ≤ Int.emod n d := Int.emod_nonneg n (ne_of_gt hd)
  have hrd : Int.emod n d < d := Int.emod_lt_of_pos n hd
  have hq50 : Int.ediv n d < 50 := by
    by_contra hc
    push_neg at hc
    have hmul : d * 50 ≤ d * Int.ediv n d :=
      mul_le_mul_of_nonneg_left hc (le_of_lt hd)
    linarith
  have hq49 : 49 ≤ Int.ediv n d := by
    by_contra hc
    push_neg at hc
    have hle : Int.ediv n d ≤ 48 := by omega
    have hmul : d * Int.ediv n d ≤ d * 48 :=
      mul_le_mul_of_nonneg_left hle (le_of_lt hd)
    linarith
  have hq : Int.ediv n d = 49 := by omega
  have h2r : d ≤ 2 * Int.emod n d := by
    rw [hq] at hdvd
    linarith
  simp only [roundHalfEven]
  rw [if_neg (not_lt.mpr h2r)]
  by_cases htie : d < 2 * Int.emod n d
  · rw [if_pos htie, hq]; decide
  · rw [if_neg htie, if_neg (show ¬ Int.ediv n d % 2 = 0 by rw [hq]; decide), hq]
    decide

/-- Rounding to three decimals maps every compound in the interval from
0.0495 inclusive to 0.05 exclusive to exactly 0.05. -/
theorem round3_of_interval (c : ℚ) (h1 : mkRat 99 2000 ≤ c) (h2 : c < mkRat 5 100) :
    round3 c = mkRat 5 100 := by
  have hd : (0 : ℤ) < (c.den : ℤ) := by exact_mod_cast c.pos
  have e1 : (mkRat 99 2000).num = 99 := by decide
  have e2 : (mkRat 99 2000).den = 2000 := by decide
  have e3 : (mkRat 5 100).num = 1 := by decide
  have e4 : (mkRat 5 100).den = 20 := by decide
  have hnum1 := Rat.le_def.mp h1
  rw [e1, e2] at hnum1
  have hnum2 := Rat.lt_def.mp h2
  rw [e3, e4] at hnum2
  push_cast at hnum1 hnum2
  have key : roundHalfEven (c.num * 1000) (c.den : ℤ) = 50 := by
    apply roundHalfEven_eq_50 _ _ hd
    · linarith
    · linarith
  unfold round3
  rw [key]
  decide

/-- C10: `analyze_vader` in `sentiment.py` derives the label from the exact
compound but returns the compound rounded to three decimals: for any engine
whose compound lies in `[0.0495, 0.05)` the returned label is Neutral while
the returned compound is exactly 0.05 - a value the threshold rule maps to
Positive. -/
theorem rounded_compound_breaks_threshold
    (vader_engine : List Char → VaderScores) (text : List Char)
    (h1 : mkRat 99 2000 ≤ (vader_engine text).compound)
    (h2 : (vader_engine text).compound < mkRat 5 100) :
    (analyze_vader vader_engine text).1 = "Neutral" ∧
    (analyze_vader vader_engine text).2.1 = mkRat 5 100 ∧
    vader_label ((analyze_vader vader_engine text).2.1) = "Positive" := by
  have hr : round3 (vader_engine text).compound = mkRat 5 100 :=
    round3_of_interval _ h1 h2
  have hneg : ¬ (vader_engine text).compound ≤ mkRat (-5) 100 := by
    have hlt : mkRat (-5) 100 < mkRat 99 2000 := by decide
    exact not_le.mpr (lt_of_lt_of_le hlt h1)
  have hpos : ¬ (vader_engine text).compound ≥ mkRat 5 100 := not_le.mpr h2
  have hneu : vader_label (vader_engine text).compound = "Neutral" := by
    unfold vader_label
    rw [if_neg hpos, if_neg hneg]
  refine ⟨hneu, hr, ?_⟩
  show vader_label ((analyze_vader vader_engine text).2.1) = "Positive"
  rw [show ((analyze_vader vader_engine text).2.1 : ℚ) = mkRat 5 100 from hr]
  decide

/-- C10 witness: an engine reporting compound exactly 0.0495 on the empty
text - the label says Neutral, the reported compound says 0.05. -/
theorem rounded_compound_breaks_threshold_witness :
    (analyze_vader (fun _ => ⟨0, 0, 0, mkRat 99 2000⟩) []).1 = "Neutral" ∧
    (analyze_vader (fun _ => ⟨0, 0, 0, mkRat 99 2000⟩) []).2.1 = mkRat 5 100 ∧
    vader_label ((analyze_vader (fun _ => ⟨0, 0, 0, mkRat 99 2000⟩) []).2.1) =
      "Positive" :=
  rounded_compound_breaks_threshold _ _ (by decide) (by decide)
